import Mathlib

/-!
Verification of `enthought/mayavi/core/adder_node.py`: tree-view "adder"
nodes that let a user add scenes, sources, modules and filters to a
visualization pipeline.

Shallow embedding notes.
* A pipeline object is modelled by the one attribute this module reads from
  it: its `menu_helper`.  A menu helper is modelled by its `check_*`
  methods, collapsed into one partial map `check : String → Option Bool`
  (`Option.none` models "the attribute does not exist", `some b` models "the
  attribute exists and calling it returns a value of truthiness `b`"), plus
  the `actions` attribute that `_object_changed` touches.
* Registry entries carry the three fields read by this module:
  `menu_name`, `help` and `id`; data-source entries also carry `extensions`.
* Python exceptions are modelled with `Except PyError`.
* Stateful handlers are modelled as explicit state transformers; the
  class-level `Mutable.attr` cell is threaded as an explicit argument and
  result.
-/

/-- A Python exception, as far as this module can raise one. -/
inductive PyError where
  | attributeError (attr : String)
deriving DecidableEq, Repr

/-- The `menu_helper` object owned by a pipeline node, seen through the two
attributes this module reads: its `check_<id>` methods (`check s = none`
models `hasattr(helper, s) == False`; `check s = some b` models that the
attribute exists and calling it returns a value of truthiness `b`) and its
`actions` attribute. -/
structure MenuHelper where
  check : String → Option Bool
  actions : List String

/-- A pipeline object, seen through the one attribute `ListAdderNode` reads
from it. -/
structure PipelineObject where
  menu_helper : MenuHelper

/-- A registry entry (metadata describing one source/module/filter), with the
fields `adder_node.py` reads. -/
structure RegistryEntry where
  menu_name : String
  help : String
  id : String
deriving DecidableEq, Repr

/-- A registry entry for a data source: additionally carries the list of
file extensions it handles. -/
structure SourceRegistryEntry extends RegistryEntry where
  extensions : List String
deriving DecidableEq, Repr

/-- Python's `s.replace('&', '')` for the one-character pattern `'&'`:
every occurrence of `'&'` is removed. -/
def removeAmp (s : String) : String :=
  String.mk (s.data.filter (fun c => c != '&'))

/-- `hasattr(helper, attr_name)` for a `check_*` attribute. -/
def MenuHelper.hasCheckAttr (h : MenuHelper) (attr_name : String) : Bool :=
  (MenuHelper.check h attr_name).isSome

/-- `getattr(helper, attr_name)()` for a `check_*` attribute, defined when the
attribute exists (callers guard with `hasattr`). -/
def MenuHelper.callCheckAttr (h : MenuHelper) (attr_name : String) : Bool :=
  (MenuHelper.check h attr_name).getD false

/-- `DocumentedItem`: container holding a name and a documentation for an
action (the `add` button itself is pure widgetry and is not part of the
state). -/
structure DocumentedItem where
  enabled : Bool
  name : String
  documentation : String
  id : String
  object : Option PipelineObject

/-- One call made to the surrounding application (engine, menu helper). -/
inductive ExtCall where
  | new_scene
  | open_file_action
  | menu_action (id : String) (select : Bool)
deriving DecidableEq, Repr

namespace SceneAdderNode

/-- `SceneAdderNode._add_scene_fired`: the trace of external calls the
button handler makes — `self.object.new_scene()`. -/
def _add_scene_fired : List ExtCall :=
  [ExtCall.new_scene]

end SceneAdderNode

namespace SourceAdderNode

/-- `SourceAdderNode._open_file_fired`: the trace of external calls the
button handler makes — `self.object.menu_helper.open_file_action()`. -/
def _open_file_fired : List ExtCall :=
  [ExtCall.open_file_action]

/-- `SourceAdderNode._is_action_suitable`: the override returns `True`
unconditionally. -/
def _is_action_suitable (_object : PipelineObject) (_src : RegistryEntry) : Bool :=
  true

/-- `SourceAdderNode.items_list_source`:
`[source for source in registry.sources if len(source.extensions) == 0]`,
with `registry.sources` (external to this module) passed as a parameter. -/
def items_list_source (registry_sources : List SourceRegistryEntry) :
    List SourceRegistryEntry :=
  registry_sources.filter (fun source => source.extensions.length == 0)

end SourceAdderNode

namespace DocumentedItem

/-- `DocumentedItem._add_fired`: the trace of external calls the handler
makes — `getattr(self.object.menu_helper, self.id)(select=False)`, one call
of the menu-helper method named by the item's `id`. -/
def _add_fired (item : DocumentedItem) : List ExtCall :=
  [ExtCall.menu_action item.id false]

/-- `DocumentedItem._get__description`, parametric in Python's
`textwrap.wrap` (imported from the standard library, external to this
module): the enabled description is the name, a newline, and the
documentation wrapped to width 40 re-joined with newlines; the disabled
description is the bare name. -/
def _get__description (wrapFn : String → Nat → List String)
    (item : DocumentedItem) : String :=
  if item.enabled then
    item.name ++ "\n" ++ String.intercalate "\n" (wrapFn item.documentation 40)
  else
    item.name

end DocumentedItem

namespace GrayedColumn

/-- `GrayedColumn.on_dclick`: runs the row's `_add_fired` when the row is
enabled; otherwise does nothing. -/
def on_dclick (item : DocumentedItem) : List ExtCall :=
  if item.enabled then DocumentedItem._add_fired item else []

/-- `GrayedColumn.get_text_color`. -/
def get_text_color (item : DocumentedItem) : String :=
  if item.enabled then "black" else "light grey"

end GrayedColumn

namespace ListAdderNode

/-- `ListAdderNode._is_action_suitable`: suitable iff the menu helper has a
`check_<src.id>` attribute and calling it returns a truthy value. -/
def _is_action_suitable (object : PipelineObject) (src : RegistryEntry) : Bool :=
  if MenuHelper.hasCheckAttr object.menu_helper ("check_" ++ src.id)
      && MenuHelper.callCheckAttr object.menu_helper ("check_" ++ src.id) then
    true
  else
    false

/-- `ListAdderNode._object_changed` as a pure transformer.

Arguments: `suitable` models the dynamically dispatched
`self._is_action_suitable` (its first argument is the value of
`Mutable.attr` visible while the rows are built — the real `check_*`
methods may read it); `items_list_source` the registry list; `value` the new
value of the `object` trait; `mutable_attr` the class-level `Mutable.attr`
cell before the call.

Result: the new `items_list` and the new value of `Mutable.attr`.  For a
non-`None` value the handler first touches `value.menu_helper.actions`,
then writes `Mutable.attr = value`, then builds one `DocumentedItem` per
registry entry; for `None` it empties the list and leaves `Mutable.attr`
alone. -/
def _object_changed
    (suitable : Option PipelineObject → PipelineObject → RegistryEntry → Bool)
    (items_list_source : List RegistryEntry)
    (value : Option PipelineObject)
    (mutable_attr : Option PipelineObject) :
    List DocumentedItem × Option PipelineObject :=
  match value with
  | Option.none => ([], mutable_attr)
  | Option.some v =>
    let _x := v.menu_helper.actions
    let attr1 : Option PipelineObject := Option.some v
    (items_list_source.map (fun src =>
      { name := removeAmp src.menu_name
        enabled := suitable attr1 v src
        documentation := src.help
        id := src.id
        object := Option.some v }),
     attr1)

/-- The suitability dispatch a plain `ListAdderNode` uses: its own
`_is_action_suitable` (which does not read `Mutable.attr`). -/
def ownSuitable : Option PipelineObject → PipelineObject → RegistryEntry → Bool :=
  fun _attr object src => _is_action_suitable object src

end ListAdderNode

/-! ## `AdderNode._get_scene`

What `_get_scene` needs of the `object` trait's value: whether it is an
`AdderNode`, `None`, or some other pipeline node, which then carries a
`scene` attribute (itself possibly `None`, abstracted as `Option Nat`). -/

/-- A value of the `object` trait of an `AdderNode`, as coarse as
`_get_scene` inspects it. -/
inductive NodeObject where
  | null
  | adderInstance
  | pipeline (scene : Option Nat)
deriving DecidableEq, Repr

/-- The attributes of an `AdderNode` instance that `_get_scene` reads: the
`object` trait, and the instance attribute `obj`.  `obj` is declared by no
trait and assigned nowhere in the module, so on a real instance it is unset
(`Option.none`); reading an unset, undeclared attribute of a plain
`HasTraits` object raises `AttributeError`, exactly as on a plain Python
object. -/
structure AdderNodeAttrs where
  object : NodeObject
  obj : Option NodeObject

namespace AdderNode

/-- `AdderNode._get_scene` as written: it reads `self.obj` (not the
`object` trait), then returns `None` for an `AdderNode`, the object's
`scene` attribute for a non-`None` object, and `None` otherwise. -/
def _get_scene (s : AdderNodeAttrs) : Except PyError (Option Nat) :=
  match s.obj with
  | Option.none => Except.error (PyError.attributeError "obj")
  | Option.some object =>
    match object with
    | NodeObject.adderInstance => Except.ok Option.none
    | NodeObject.pipeline scene => Except.ok scene
    | NodeObject.null => Except.ok Option.none

/-- The getter as the spec describes it (clearly the intent: the docstring
calls `_get_scene` "Trait Property getter for 'scene'", which is about the
node's `object`): `None` when the node's `object` is an `AdderNode` or
`None`, that object's `scene` attribute otherwise, never raising. -/
def _get_scene_intended (s : AdderNodeAttrs) : Except PyError (Option Nat) :=
  match s.object with
  | NodeObject.adderInstance => Except.ok Option.none
  | NodeObject.pipeline scene => Except.ok scene
  | NodeObject.null => Except.ok Option.none

end AdderNode

/-! ## `EngineAdderNode`

The dispatcher state machine.  A trait value assigned to the `object` trait
is `None`, the `EngineAdderNode` itself (the guard `new is self` exists
because the user can select the adder node in the tree), or some other
object, carried with an identity (`oid`, so that the traits machinery's
"fire only on change" test models Python's object comparison) and the four
type-membership facts the dispatcher tests. -/

/-- The type-membership facts `EngineAdderNode._object_changed` tests of an
object: `isinstance(obj, self.engine.__class__)`, `isinstance(obj, Scene)`,
`isinstance(obj, Source)`, `isinstance(obj, ModuleManager)`,
`hasattr(obj, 'module_manager')`. -/
structure TypeFlags where
  isEngineInstance : Bool
  isScene : Bool
  isSource : Bool
  isModuleManager : Bool
  hasModuleManagerAttr : Bool
deriving DecidableEq, Repr

/-- A value of the `object` trait of an `EngineAdderNode`. -/
inductive Value where
  | vnone
  | vself
  | vobj (oid : Nat) (flags : TypeFlags)
deriving DecidableEq, Repr

/-- `None` and the adder node itself satisfy none of the five
type-membership tests (an `EngineAdderNode` is no engine, scene, source or
module manager and has no `module_manager` attribute). -/
def Value.flags : Value → TypeFlags
  | Value.vobj _ f => f
  | _ => ⟨false, false, false, false, false⟩

/-- The keys of `EngineAdderNode.adders` (see `_adders_default`). -/
inductive AdderKey where
  | scene
  | source
  | moduleFilter
deriving DecidableEq, Repr

/-- An engine, seen through what `EngineAdderNode` reads of it: an identity,
its `current_selection` trait, and how it answers the type tests (an engine
is an instance of its own class). -/
structure EngineV where
  eid : Nat
  current_selection : Value
  flags : TypeFlags
deriving DecidableEq, Repr

/-- The engine as a trait value. -/
def engineValue (e : EngineV) : Value :=
  Value.vobj e.eid e.flags

/-- The state of an `EngineAdderNode`: its `engine` and `object` traits,
which of the three child adders `adder_node` refers to, the `object` trait
of each child adder, and the engines on whose `current_selection` the
node's `_change_object` handler is registered (by engine identity). -/
structure EAState where
  engine : Option EngineV
  object : Value
  adderNode : AdderKey
  sceneObj : Value
  sourceObj : Value
  moduleFilterObj : Value
  listeners : List Nat
deriving DecidableEq, Repr

namespace EngineAdderNode

/-- `self.adders[k].object = v` (the children's own `_object_changed`
handlers are modelled separately with `ListAdderNode._object_changed`). -/
def setAdderObj (s : EAState) (k : AdderKey) (v : Value) : EAState :=
  match k with
  | AdderKey.scene => { s with sceneObj := v }
  | AdderKey.source => { s with sourceObj := v }
  | AdderKey.moduleFilter => { s with moduleFilterObj := v }

/-- `self.adders[k].object`. -/
def getAdderObj (s : EAState) (k : AdderKey) : Value :=
  match k with
  | AdderKey.scene => s.sceneObj
  | AdderKey.source => s.sourceObj
  | AdderKey.moduleFilter => s.moduleFilterObj

/-- `self.engine` as a trait value (`Value.vnone` when the trait is still
unset). -/
def engineValueOf (s : EAState) : Value :=
  match s.engine with
  | Option.some e => engineValue e
  | Option.none => Value.vnone

/-- The four-way dispatch of `EngineAdderNode._object_changed` on the
selected object. -/
def dispatch (obj : Value) : AdderKey :=
  if (Value.flags obj).isEngineInstance then
    AdderKey.scene
  else if (Value.flags obj).isScene then
    AdderKey.source
  else if (Value.flags obj).isSource || (Value.flags obj).isModuleManager
      || (Value.flags obj).hasModuleManagerAttr then
    AdderKey.moduleFilter
  else
    AdderKey.scene

/-- `EngineAdderNode._object_changed(old, new)`: guard against the node
itself having been selected, pick the child adder by the four-way type
check, then point the chosen adder at the object (or at the engine when the
object is `None`).  The state already holds `object = new` when the traits
machinery runs this handler. -/
def _object_changed (s : EAState) (old new : Value) : EAState :=
  let obj := if new = Value.vself then old else new
  let s1 := { s with adderNode := dispatch obj }
  if obj = Value.vnone then
    setAdderObj s1 s1.adderNode (engineValueOf s1)
  else
    setAdderObj s1 s1.adderNode obj

/-- Assignment to the `object` trait: the traits machinery stores the value
and runs `_object_changed(old, new)` when the value changed. -/
def set_object (s : EAState) (v : Value) : EAState :=
  if s.object = v then s
  else _object_changed { s with object := v } s.object v

/-- `EngineAdderNode._change_object`: the dynamic handler registered on the
engine's `current_selection` — `self.object = value`. -/
def _change_object (s : EAState) (v : Value) : EAState :=
  set_object s v

/-- `EngineAdderNode._engine_changed(old, new)`: unregister
`_change_object` from the old engine (when there is one), register it on
the new one, copy the new engine's `current_selection` into the `object`
trait, and when the selection is `None` point the current child adder at
the new engine.  The state already holds `engine = some new` when the
traits machinery runs this handler. -/
def _engine_changed (s : EAState) (old : Option EngineV) (new : EngineV) : EAState :=
  let ls :=
    match old with
    | Option.some o => s.listeners.erase o.eid
    | Option.none => s.listeners
  let s1 := { s with listeners := ls ++ [new.eid] }
  let s2 := set_object s1 new.current_selection
  if s2.object = Value.vnone then
    setAdderObj s2 s2.adderNode (engineValue new)
  else
    s2

/-- Assignment to the `engine` trait: store, then run `_engine_changed`. -/
def set_engine (s : EAState) (e : EngineV) : EAState :=
  _engine_changed { s with engine := Option.some e } s.engine e

/-- The engine fires its `current_selection` change notification: each
registered `_change_object` handler runs; our node's runs exactly when it
is registered on that engine. -/
def fire_current_selection_changed (s : EAState) (eid : Nat) (v : Value) : EAState :=
  if eid ∈ s.listeners then _change_object s v else s

end EngineAdderNode

/-! ## Spec-side definitions

Definitions written from the claims' words, to be compared with the ones
embedded from the source. -/

/-- The four-way dispatch as claim C1 states it: engine instance → the
`'scene'` adder; else `Scene` → `'source'`; else `Source`, `ModuleManager`
or an object with a `module_manager` attribute → `'module-filter'`;
otherwise `'scene'`. -/
def dispatch_spec (obj : Value) : AdderKey :=
  if (Value.flags obj).isEngineInstance = true then
    AdderKey.scene
  else if (Value.flags obj).isScene = true then
    AdderKey.source
  else if (Value.flags obj).isSource = true ∨ (Value.flags obj).isModuleManager = true
      ∨ (Value.flags obj).hasModuleManagerAttr = true then
    AdderKey.moduleFilter
  else
    AdderKey.scene

/-- The displayed list as claim C2 reads it: the registry filtered by
applicability — a row appears only for the registry entries whose action is
suitable for the current object. -/
def items_list_claimC2 (items_list_source : List RegistryEntry) (v : PipelineObject) :
    List DocumentedItem :=
  (items_list_source.filter (fun src => ListAdderNode._is_action_suitable v src)).map
    (fun src =>
      { name := removeAmp src.menu_name
        enabled := ListAdderNode._is_action_suitable v src
        documentation := src.help
        id := src.id
        object := Option.some v })

/-- An object whose menu helper has no `check_*` attribute at all: no
action is suitable for it. -/
def cexObj : PipelineObject :=
  { menu_helper := { check := fun _ => Option.none, actions := [] } }

/-- One registry entry, of the shape the mayavi registry holds. -/
def cexEntry : RegistryEntry :=
  { menu_name := "&Cut plane", help := "Applies a cut plane.", id := "add_cut_plane" }

/-! ## Helper lemmas on the `EngineAdderNode` state machine -/

namespace EngineAdderNode

theorem setAdderObj_adderNode (s : EAState) (k : AdderKey) (v : Value) :
    (setAdderObj s k v).adderNode = s.adderNode := by
  cases k <;> rfl

theorem setAdderObj_object (s : EAState) (k : AdderKey) (v : Value) :
    (setAdderObj s k v).object = s.object := by
  cases k <;> rfl

theorem setAdderObj_listeners (s : EAState) (k : AdderKey) (v : Value) :
    (setAdderObj s k v).listeners = s.listeners := by
  cases k <;> rfl

theorem getAdderObj_setAdderObj_same (s : EAState) (k : AdderKey) (v : Value) :
    getAdderObj (setAdderObj s k v) k = v := by
  cases k <;> rfl

theorem object_changed_object (s : EAState) (old new : Value) :
    (_object_changed s old new).object = s.object := by
  simp only [_object_changed]
  split <;> split <;> rw [setAdderObj_object]

theorem object_changed_listeners (s : EAState) (old new : Value) :
    (_object_changed s old new).listeners = s.listeners := by
  simp only [_object_changed]
  split <;> split <;> rw [setAdderObj_listeners]

theorem set_object_object (s : EAState) (v : Value) :
    (set_object s v).object = v := by
  simp only [set_object]
  split
  · next h => exact h
  · rw [object_changed_object]

theorem set_object_listeners (s : EAState) (v : Value) :
    (set_object s v).listeners = s.listeners := by
  simp only [set_object]
  split
  · rfl
  · rw [object_changed_listeners]

theorem engine_changed_listeners (s : EAState) (old : Option EngineV) (new : EngineV) :
    (_engine_changed s old new).listeners
      = (match old with
          | Option.some o => s.listeners.erase o.eid
          | Option.none => s.listeners) ++ [new.eid] := by
  simp only [_engine_changed]
  split
  · rw [setAdderObj_listeners, set_object_listeners]
  · rw [set_object_listeners]

end EngineAdderNode


theorem dispatch_eq_spec (obj : Value) :
    EngineAdderNode.dispatch obj = dispatch_spec obj := by
  unfold EngineAdderNode.dispatch dispatch_spec
  rcases h : Value.flags obj with ⟨a, b, c, d, e⟩
  cases a <;> cases b <;> cases c <;> cases d <;> cases e <;> simp

/-! ## The claims -/

/-- C1: every run of `EngineAdderNode._object_changed` selects one of the
three child adder nodes by the four-way runtime type check of the
(self-guarded) selected object: engine instance → `adders['scene']`; else
`Scene` → `adders['source']`; else `Source`, `ModuleManager` or an object
with a `module_manager` attribute → `adders['module-filter']`; otherwise
`adders['scene']`. -/
theorem engineAdder_dispatch_four_way (s : EAState) (old new : Value) :
    (EngineAdderNode._object_changed s old new).adderNode
      = dispatch_spec (if new = Value.vself then old else new) := by
  rw [← dispatch_eq_spec]
  simp only [EngineAdderNode._object_changed]
  split <;> split <;> rw [EngineAdderNode.setAdderObj_adderNode]

/-- C2 (counterexample to the claim as stated): with a one-entry registry
and an object for which the entry's action is not suitable, the rebuilt
`items_list` is not the registry filtered by applicability — the
unsuitable entry still gets a (disabled) row, while the filtered list is
empty. -/
theorem listAdder_filtered_claim_cex :
    (ListAdderNode._object_changed ListAdderNode.ownSuitable [cexEntry]
        (Option.some cexObj) Option.none).fst
      ≠ items_list_claimC2 [cexEntry] cexObj := by
  intro h
  have hlen := congrArg List.length h
  simp [ListAdderNode._object_changed, ListAdderNode.ownSuitable, items_list_claimC2,
        ListAdderNode._is_action_suitable, MenuHelper.hasCheckAttr,
        MenuHelper.callCheckAttr, cexObj, cexEntry] at hlen

/-- C2 (amended): after a change of `ListAdderNode.object` to a non-`None`
value, `items_list` holds one row per registry entry, in registry order; a
row is enabled exactly when the action is suitable for the current object,
so the enabled rows are exactly the suitable registry entries. -/
theorem listAdder_rows_match_registry
    (suitable : Option PipelineObject → PipelineObject → RegistryEntry → Bool)
    (items_list_source : List RegistryEntry) (v : PipelineObject)
    (mutable_attr : Option PipelineObject) :
    ((ListAdderNode._object_changed suitable items_list_source (Option.some v)
          mutable_attr).fst.map (fun item => item.id)
        = items_list_source.map (fun src => src.id))
    ∧ ((ListAdderNode._object_changed suitable items_list_source (Option.some v)
          mutable_attr).fst.map (fun item => item.enabled)
        = items_list_source.map (fun src => suitable (Option.some v) v src))
    ∧ (((ListAdderNode._object_changed suitable items_list_source (Option.some v)
          mutable_attr).fst.filter (fun item => item.enabled)).map (fun item => item.id)
        = (items_list_source.filter (fun src => suitable (Option.some v) v src)).map
            (fun src => src.id)) := by
  refine ⟨?_, ?_, ?_⟩
  · simp [ListAdderNode._object_changed, List.map_map, Function.comp]
  · simp [ListAdderNode._object_changed, List.map_map, Function.comp]
  · simp only [ListAdderNode._object_changed, List.filter_map, List.map_map]
    congr 1

/-- C3: `ListAdderNode._is_action_suitable(object, src)` returns `True`
exactly when the object's menu helper has a `check_<src.id>` attribute and
calling it returns a truthy value; when the attribute does not exist the
method returns `False` (it is total: no exception). -/
theorem listAdder_is_action_suitable_iff (o : PipelineObject) (src : RegistryEntry) :
    (ListAdderNode._is_action_suitable o src = true ↔
        MenuHelper.check o.menu_helper ("check_" ++ src.id) = Option.some true)
    ∧ (MenuHelper.check o.menu_helper ("check_" ++ src.id) = Option.none →
        ListAdderNode._is_action_suitable o src = false) := by
  cases h : MenuHelper.check o.menu_helper ("check_" ++ src.id) with
  | none =>
      simp [ListAdderNode._is_action_suitable, MenuHelper.hasCheckAttr,
            MenuHelper.callCheckAttr, h]
  | some b =>
      cases b <;>
        simp [ListAdderNode._is_action_suitable, MenuHelper.hasCheckAttr,
              MenuHelper.callCheckAttr, h]

/-- C4: a change of `ListAdderNode.object` to a non-`None` value rebuilds
`items_list` as one `DocumentedItem` per registry entry in registry order
— name the entry's `menu_name` with every `'&'` removed, documentation the
entry's `help`, id the entry's `id`, enabled the result of
`_is_action_suitable` on that entry — and a change to `None` empties it. -/
theorem listAdder_object_changed_rows
    (items_list_source : List RegistryEntry) (v : PipelineObject)
    (mutable_attr : Option PipelineObject) :
    ((ListAdderNode._object_changed ListAdderNode.ownSuitable items_list_source
          (Option.some v) mutable_attr).fst
        = items_list_source.map (fun src =>
            { name := removeAmp src.menu_name
              enabled := ListAdderNode._is_action_suitable v src
              documentation := src.help
              id := src.id
              object := Option.some v }))
    ∧ ((ListAdderNode._object_changed ListAdderNode.ownSuitable items_list_source
          Option.none mutable_attr).fst = []) :=
  ⟨rfl, rfl⟩

/-- C5: `AdderNode._get_scene` as written reads `self.obj`, an attribute
that is never assigned anywhere in the module, so on a real instance it
raises `AttributeError` instead of returning the `scene` attribute of the
node's `object`; the intended getter (per the spec) returns it without
raising. -/
theorem adderNode_get_scene_bug :
    (AdderNode._get_scene
        { object := NodeObject.pipeline (Option.some 5), obj := Option.none }
      = Except.error (PyError.attributeError "obj"))
    ∧ (AdderNode._get_scene_intended
        { object := NodeObject.pipeline (Option.some 5), obj := Option.none }
      = Except.ok (Option.some 5))
    ∧ ∀ s : AdderNodeAttrs, s.obj = Option.none →
        AdderNode._get_scene s = Except.error (PyError.attributeError "obj") := by
  refine ⟨rfl, rfl, fun s h => ?_⟩
  simp [AdderNode._get_scene, h]

/-- C6: each button handler makes exactly one external call and nothing
else: `add_scene` calls `new_scene()`, `open_file` calls
`menu_helper.open_file_action()`, and a `DocumentedItem`'s add button calls
the menu-helper method named by the item's id with `select=False`. -/
theorem button_handlers_single_call (item : DocumentedItem) :
    (SceneAdderNode._add_scene_fired = [ExtCall.new_scene])
    ∧ (SourceAdderNode._open_file_fired = [ExtCall.open_file_action])
    ∧ (DocumentedItem._add_fired item = [ExtCall.menu_action item.id false])
    ∧ SceneAdderNode._add_scene_fired.length = 1
    ∧ SourceAdderNode._open_file_fired.length = 1
    ∧ (DocumentedItem._add_fired item).length = 1 :=
  ⟨rfl, rfl, rfl, rfl, rfl, rfl⟩

/-- C8: `Mutable.attr` is a transient handoff cell — a run of
`ListAdderNode._object_changed` with a non-`None` value stores that value
in `Mutable.attr` and the rows are then built with that stored value
visible; a run with `None` leaves `Mutable.attr` unchanged. -/
theorem mutable_attr_handoff
    (suitable : Option PipelineObject → PipelineObject → RegistryEntry → Bool)
    (items_list_source : List RegistryEntry) (v : PipelineObject)
    (mutable_attr : Option PipelineObject) :
    ((ListAdderNode._object_changed suitable items_list_source (Option.some v)
          mutable_attr).snd = Option.some v)
    ∧ ((ListAdderNode._object_changed suitable items_list_source Option.none
          mutable_attr).snd = mutable_attr)
    ∧ ((ListAdderNode._object_changed suitable items_list_source (Option.some v)
          mutable_attr).fst
        = items_list_source.map (fun src =>
            { name := removeAmp src.menu_name
              enabled := suitable (Option.some v) v src
              documentation := src.help
              id := src.id
              object := Option.some v })) :=
  ⟨rfl, rfl, rfl⟩

/-- C9: `SourceAdderNode` overrides the suitability check to `True` for
every object and entry, so every row it builds is enabled; and its
candidate list is exactly the registry sources whose extensions list is
empty. -/
theorem sourceAdder_all_enabled (o : PipelineObject) (src : RegistryEntry)
    (registry_sources : List SourceRegistryEntry) (entry : SourceRegistryEntry)
    (items_list_source : List RegistryEntry) (v : PipelineObject)
    (mutable_attr : Option PipelineObject) :
    (SourceAdderNode._is_action_suitable o src = true)
    ∧ (entry ∈ SourceAdderNode.items_list_source registry_sources ↔
        entry ∈ registry_sources ∧ entry.extensions = [])
    ∧ ∀ item ∈ (ListAdderNode._object_changed
          (fun _attr object src2 => SourceAdderNode._is_action_suitable object src2)
          items_list_source (Option.some v) mutable_attr).fst,
        item.enabled = true := by
  refine ⟨rfl, ?_, ?_⟩
  · simp [SourceAdderNode.items_list_source, List.mem_filter, List.length_eq_zero]
  · intro item hmem
    simp only [ListAdderNode._object_changed, List.mem_map] at hmem
    obtain ⟨src2, _, rfl⟩ := hmem
    rfl

/-- C10: double-clicking a row triggers its add action exactly when the
row is enabled; a disabled row's double-click performs no action and its
description is the bare name, while an enabled row's description is the
name followed by the documentation wrapped to width 40. -/
theorem grayedColumn_dclick_iff_enabled (wrapFn : String → Nat → List String)
    (item : DocumentedItem) :
    (GrayedColumn.on_dclick item = DocumentedItem._add_fired item ↔ item.enabled = true)
    ∧ (item.enabled = false →
        GrayedColumn.on_dclick item = []
        ∧ DocumentedItem._get__description wrapFn item = item.name)
    ∧ (item.enabled = true →
        DocumentedItem._get__description wrapFn item
          = item.name ++ "\n" ++ String.intercalate "\n" (wrapFn item.documentation 40)) := by
  cases h : item.enabled <;>
    simp [GrayedColumn.on_dclick, DocumentedItem._add_fired,
          DocumentedItem._get__description, h]

namespace EngineAdderNode

theorem set_engine_listeners (s : EAState) (e : EngineV) :
    (set_engine s e).listeners
      = (match s.engine with
          | Option.some o => s.listeners.erase o.eid
          | Option.none => s.listeners) ++ [e.eid] := by
  simp only [set_engine]
  rw [engine_changed_listeners]

theorem engine_changed_object (s : EAState) (old : Option EngineV) (new : EngineV) :
    (_engine_changed s old new).object = new.current_selection := by
  simp only [_engine_changed]
  split
  · rw [setAdderObj_object, set_object_object]
  · rw [set_object_object]

theorem set_engine_object (s : EAState) (e : EngineV) :
    (set_engine s e).object = e.current_selection := by
  simp only [set_engine]
  rw [engine_changed_object]

theorem engine_changed_adder_obj_of_none (s : EAState) (old : Option EngineV)
    (new : EngineV) (h : new.current_selection = Value.vnone) :
    getAdderObj (_engine_changed s old new) (_engine_changed s old new).adderNode
      = engineValue new := by
  simp only [_engine_changed]
  split
  · rw [setAdderObj_adderNode, getAdderObj_setAdderObj_same]
  · next hif =>
      exact absurd (by rw [set_object_object, h]) hif

theorem set_engine_adder_obj_of_none (s : EAState) (e : EngineV)
    (h : e.current_selection = Value.vnone) :
    getAdderObj (set_engine s e) (set_engine s e).adderNode = engineValue e := by
  simp only [set_engine]
  exact engine_changed_adder_obj_of_none _ _ _ h

end EngineAdderNode

/-- Claim C7's property of one `engine` assignment: the listener
bookkeeping, the copied selection, the adder pointed at the engine when the
selection is `None`, and the propagation of a later `current_selection`
change into the `object` trait. -/
def engineChangedSpec (s : EAState) (e : EngineV) (v : Value) : Prop :=
  e.eid ∈ (EngineAdderNode.set_engine s e).listeners
  ∧ (∀ o : EngineV, s.engine = Option.some o → o.eid ≠ e.eid →
      o.eid ∉ (EngineAdderNode.set_engine s e).listeners)
  ∧ (EngineAdderNode.set_engine s e).object = e.current_selection
  ∧ (e.current_selection = Value.vnone →
      EngineAdderNode.getAdderObj (EngineAdderNode.set_engine s e)
        (EngineAdderNode.set_engine s e).adderNode = engineValue e)
  ∧ (EngineAdderNode.fire_current_selection_changed
        (EngineAdderNode.set_engine s e) e.eid v).object = v

/-- C7: when `EngineAdderNode.engine` is set, the `current_selection`
listener is removed from the old engine (if any) and attached to the new
one, `object` is set to the new engine's `current_selection`, a `None`
selection points the active adder node at the new engine itself, and a
later change of the engine's `current_selection` is written into
`object`. -/
theorem engineAdder_engine_changed_behavior (s : EAState) (e : EngineV) (v : Value)
    (hnodup : s.listeners.Nodup) : engineChangedSpec s e v := by
  have hmem : e.eid ∈ (EngineAdderNode.set_engine s e).listeners := by
    rw [EngineAdderNode.set_engine_listeners]
    exact List.mem_append_right _ (List.mem_singleton_self _)
  refine ⟨hmem, ?_, EngineAdderNode.set_engine_object s e, ?_, ?_⟩
  · intro o ho hne hmem2
    rw [EngineAdderNode.set_engine_listeners] at hmem2
    simp only [ho] at hmem2
    rcases List.mem_append.mp hmem2 with h1 | h1
    · exact hnodup.not_mem_erase h1
    · exact hne (List.mem_singleton.mp h1)
  · intro hcs
    exact EngineAdderNode.set_engine_adder_obj_of_none s e hcs
  · simp only [EngineAdderNode.fire_current_selection_changed,
               EngineAdderNode._change_object]
    rw [if_pos hmem, EngineAdderNode.set_object_object]

/-- A fresh `EngineAdderNode` state: no engine yet, nothing selected, no
listener registered. -/
def witnessState : EAState :=
  { engine := Option.none
    object := Value.vnone
    adderNode := AdderKey.scene
    sceneObj := Value.vnone
    sourceObj := Value.vnone
    moduleFilterObj := Value.vnone
    listeners := [] }

/-- An engine with identity 1 and no current selection. -/
def witnessEngine : EngineV :=
  { eid := 1
    current_selection := Value.vnone
    flags := { isEngineInstance := true
               isScene := false
               isSource := false
               isModuleManager := false
               hasModuleManagerAttr := false } }

/-- C7 witness: the behavior at a concrete fresh state, engine and a later
selection (a `Scene` with identity 7). -/
theorem engineAdder_engine_changed_witness :
    witnessState.listeners.Nodup
    ∧ engineChangedSpec witnessState witnessEngine
        (Value.vobj 7 ⟨false, true, false, false, false⟩) :=
  ⟨List.nodup_nil,
   engineAdder_engine_changed_behavior witnessState witnessEngine
     (Value.vobj 7 ⟨false, true, false, false, false⟩) List.nodup_nil⟩
